import Mathlib

/-!
Shallow embedding of the Django model layer in `src/architecture.py`
(artisan–user marketplace schema).

Conventions of the embedding:
* UUID primary keys are modelled as `Nat` identifiers.
* `DecimalField(decimal_places=2)` values are modelled as `Int` counts of
  hundredths (so `average_rating ∈ [0.00, 5.00]` becomes `0 ≤ r ∧ r ≤ 500`).
* nullable foreign keys / nullable fields are `Option _`; `blank=True`
  char fields are plain `String` (Django stores the empty string).
* `ImageField` / `FileField` store only a path reference, modelled as
  `String` (required) or `Option String` (nullable).
* timestamps (`auto_now`, `auto_now_add`) are opaque `Nat` values set by the
  external request layer; no claim here depends on them.
* a table is a `List` of records; the write path of each model is an
  explicit function (`save`-method logic followed by the declared database
  constraints).  A constrained insert returns `Except WriteError`.
* `django.utils.text.slugify` is embedded for ASCII inputs: the
  NFKD-normalise / ascii-encode-ignore step acts as the identity on ASCII
  code points and drops the rest, which is how it is rendered below.
-/

namespace ArtisanMarket

/-! ## slugify (django.utils.text.slugify, ASCII fragment) -/

/-- Python regex class `\s` (whitespace), over ASCII. -/
def isSpaceChar (c : Char) : Bool :=
  c = ' ' || c = '\t' || c = '\n' || c = '\r' || c = '\x0b' || c = '\x0c'

/-- Python regex class `\w` over ASCII: alphanumerics and underscore. -/
def isWordChar (c : Char) : Bool :=
  c.isAlphanum || c = '_'

/-- Characters that `re.sub(r"[-\s]+", "-", value)` collapses. -/
def isDashOrSpace (c : Char) : Bool :=
  c = '-' || isSpaceChar c

/-- Characters removed from both ends by `.strip("-_")`. -/
def isStripChar (c : Char) : Bool :=
  c = '-' || c = '_'

/-- Collapse every run of dashes/whitespace to a single dash,
    `re.sub(r"[-\s]+", "-", value)`.  The flag records whether the previous
    character belonged to the current run. -/
def collapseAux : Bool → List Char → List Char
  | _, [] => []
  | inRun, c :: rest =>
    if isDashOrSpace c then
      if inRun then collapseAux true rest
      else '-' :: collapseAux true rest
    else
      c :: collapseAux false rest

/-- Remove the characters of `.strip("-_")` from both ends. -/
def stripEnds (l : List Char) : List Char :=
  ((l.dropWhile isStripChar).reverse.dropWhile isStripChar).reverse

/-- `django.utils.text.slugify(value)` with `allow_unicode=False`,
    restricted to its ASCII behaviour: drop non-ASCII code points
    (rendering of NFKD + ascii/ignore), lower-case,
    delete everything outside `[\w\s-]`, collapse `[-\s]+` runs to `-`,
    strip `-` and `_` from both ends. -/
def slugify (s : String) : String :=
  let l0 := s.data.filter (fun c => c.toNat < 128)
  let l1 := l0.map Char.toLower
  let l2 := l1.filter (fun c => isWordChar c || isSpaceChar c || c = '-')
  ⟨stripEnds (collapseAux false l2)⟩

/-! ## Write-time errors (spec §7 taxonomy) -/

inductive WriteError
  | UniquenessViolation
  | ConstraintViolation
deriving DecidableEq, Repr

/-! ## User -/

/-- `User(AbstractUser)`: custom user model. -/
structure User where
  id : Nat
  email : String
  phone_number : String
  full_name : String
  profile_picture : Option String
  date_joined : Nat
  last_updated : Nat
  is_active : Bool
  is_verified : Bool
  bio : String
  address : String
  city : String
  state : String
  country : String
  postal_code : String
  username : String
deriving DecidableEq, Repr

/-! ## Role -/

/-- `Role.ROLE_CHOICES`. -/
inductive RoleType
  | USER | ARTISAN | MASON | PLUMBER | ELECTRICIAN | CARPENTER
  | PAINTER | TILER | ROOFER | ADMIN | MODERATOR
deriving DecidableEq, Repr

/-- `Role`: role assignment per user. -/
structure Role where
  id : Nat
  user : Nat
  role_type : RoleType
  is_primary : Bool
  assigned_date : Nat
  is_active : Bool
deriving DecidableEq, Repr

/-- The conditional bulk update in `Role.save`:
    `Role.objects.filter(user=self.user, is_primary=True).update(is_primary=False)`,
    run only when the saved role is primary. -/
def Role.demoteOthers (db : List Role) (r : Role) : List Role :=
  if r.is_primary then
    db.map (fun q =>
      if q.user == r.user && q.is_primary then { q with is_primary := false } else q)
  else db

/-- `super().save()`: write the row — update by primary key when present,
    insert otherwise. -/
def Role.upsert (db : List Role) (r : Role) : List Role :=
  if db.any (fun q => q.id == r.id) then
    db.map (fun q => if q.id == r.id then r else q)
  else db ++ [r]

/-- `Role.save`: demote the user's other primary roles when needed, then
    persist the row. -/
def Role.saveOn (db : List Role) (r : Role) : List Role :=
  Role.upsert (Role.demoteOthers db r) r

/-! ## ArtisanProfile -/

/-- `ArtisanProfile.EXPERIENCE_LEVELS`. -/
inductive ExperienceLevel
  | BEGINNER | INTERMEDIATE | EXPERIENCED | EXPERT
deriving DecidableEq, Repr

/-- `ArtisanProfile.AVAILABILITY_STATUS`. -/
inductive AvailabilityStatus
  | AVAILABLE | BUSY | UNAVAILABLE
deriving DecidableEq, Repr

/-- `ArtisanProfile`: professional profile, one-to-one with `User`. -/
structure ArtisanProfile where
  id : Nat
  user : Nat
  business_name : String
  slug : String
  specialization : String
  years_of_experience : Nat
  experience_level : ExperienceLevel
  license_number : String
  certification : Option String
  business_registration : String
  tax_id : String
  insurance_details : String
  average_rating : Int
  total_reviews : Nat
  completed_projects : Nat
  availability_status : AvailabilityStatus
  hourly_rate : Option Int
  service_radius : Option Nat
  about : String
  services_offered : String
  is_verified : Bool
  verified_date : Option Nat
  verification_documents : Option String
  created_at : Nat
  updated_at : Nat
deriving DecidableEq, Repr

/-- `ArtisanProfile.save`: when the slug is empty, set it to
    `slugify(f"{business_name}-{user.username}")`.  The owning user's
    `username` is passed in (the Python method reads it off `self.user`). -/
def ArtisanProfile.save (username : String) (p : ArtisanProfile) : ArtisanProfile :=
  if p.slug = "" then
    { p with slug := slugify (p.business_name ++ "-" ++ username) }
  else p

/-- Range validators declared on `ArtisanProfile`:
    `average_rating` has `MinValueValidator(0.0), MaxValueValidator(5.0)`
    (hundredths: `[0, 500]`). -/
def ArtisanProfile.checkRanges (p : ArtisanProfile) : Bool :=
  0 ≤ p.average_rating && p.average_rating ≤ 500

/-- Write path for `ArtisanProfile`: run `save` (slug generation), then the
    declared validators, then the declared uniqueness constraints
    (primary key, `user` one-to-one, `slug` with `unique=True`). -/
def ArtisanProfile.insert (db : List ArtisanProfile) (username : String)
    (p : ArtisanProfile) : Except WriteError (List ArtisanProfile) :=
  let p := ArtisanProfile.save username p
  if !p.checkRanges then .error .ConstraintViolation
  else if db.any (fun q => q.id == p.id || q.user == p.user || q.slug == p.slug) then
    .error .UniquenessViolation
  else .ok (db ++ [p])

/-! ## ArtisanWork -/

/-- `ArtisanWork.PROJECT_STATUS`. -/
inductive ProjectStatus
  | COMPLETED | IN_PROGRESS | PLANNED
deriving DecidableEq, Repr

/-- `ArtisanWork`: portfolio item of an `ArtisanProfile`. -/
structure ArtisanWork where
  id : Nat
  artisan : Nat
  title : String
  slug : String
  description : String
  project_type : String
  project_status : ProjectStatus
  duration_days : Nat
  project_cost : Option Int
  location : String
  featured_image : String
  client_name : String
  client_testimonial : String
  client_rating : Option Nat
  views_count : Nat
  likes_count : Nat
  completion_date : Option Nat
  created_at : Nat
  updated_at : Nat
  is_featured : Bool
  is_public : Bool
deriving DecidableEq, Repr

/-- `ArtisanWork.save`: when the slug is empty, set it to
    `slugify(f"{title}-{uuid.uuid4().hex[:8]}")`.  The eight-character
    random hex suffix is passed in as `suffix`. -/
def ArtisanWork.save (suffix : String) (w : ArtisanWork) : ArtisanWork :=
  if w.slug = "" then
    { w with slug := slugify (w.title ++ "-" ++ suffix) }
  else w

/-- Range validators declared on `ArtisanWork`:
    `client_rating` has `MinValueValidator(1), MaxValueValidator(5)`
    and is nullable. -/
def ArtisanWork.checkRanges (w : ArtisanWork) : Bool :=
  match w.client_rating with
  | none => true
  | some r => 1 ≤ r && r ≤ 5

/-- Write path for `ArtisanWork`: `save` (slug generation), declared
    validators, then uniqueness — only the primary key is unique; the
    `slug` field of `artisan_works` carries no `unique=True`. -/
def ArtisanWork.insert (db : List ArtisanWork) (suffix : String)
    (w : ArtisanWork) : Except WriteError (List ArtisanWork) :=
  let w := ArtisanWork.save suffix w
  if !w.checkRanges then .error .ConstraintViolation
  else if db.any (fun q => q.id == w.id) then .error .UniquenessViolation
  else .ok (db ++ [w])

/-- `ArtisanWorkImage`: gallery image of an `ArtisanWork`. -/
structure ArtisanWorkImage where
  id : Nat
  work : Nat
  image : String
  caption : String
  order : Nat
  uploaded_at : Nat
deriving DecidableEq, Repr

/-! ## UserFeed -/

/-- `UserFeed.STATUS_CHOICES`. -/
inductive FeedStatus
  | OPEN | IN_REVIEW | NEGOTIATING | CLOSED | COMPLETED | CANCELLED
deriving DecidableEq, Repr

/-- `UserFeed.PRIORITY_LEVELS`. -/
inductive PriorityLevel
  | LOW | MEDIUM | HIGH | URGENT
deriving DecidableEq, Repr

/-- `UserFeed`: job-request post owned by a `User`. -/
structure UserFeed where
  id : Nat
  user : Nat
  title : String
  slug : String
  description : String
  job_category : String
  budget_range_min : Option Int
  budget_range_max : Option Int
  invoice_image : String
  invoice_amount : Int
  invoice_date : Option Nat
  additional_documents : Option String
  location : String
  preferred_start_date : Option Nat
  deadline : Option Nat
  status : FeedStatus
  priority : PriorityLevel
  views_count : Nat
  comments_count : Nat
  likes_count : Nat
  dislikes_count : Nat
  reports_count : Nat
  created_at : Nat
  updated_at : Nat
  is_active : Bool
  is_featured : Bool
  is_flagged : Bool
deriving DecidableEq, Repr

/-- `UserFeed.save`: when the slug is empty, set it to
    `slugify(f"{title}-{uuid.uuid4().hex[:8]}")`. -/
def UserFeed.save (suffix : String) (f : UserFeed) : UserFeed :=
  if f.slug = "" then
    { f with slug := slugify (f.title ++ "-" ++ suffix) }
  else f

/-- Write path for `UserFeed`: `save`, then uniqueness — only the primary
    key is unique; `user_feeds.slug` carries no `unique=True`. -/
def UserFeed.insert (db : List UserFeed) (suffix : String)
    (f : UserFeed) : Except WriteError (List UserFeed) :=
  let f := UserFeed.save suffix f
  if db.any (fun q => q.id == f.id) then .error .UniquenessViolation
  else .ok (db ++ [f])

/-! ## ArtisanFeed -/

/-- `ArtisanFeed.POST_TYPE_CHOICES`. -/
inductive PostType
  | SERVICE | PROMOTION | SHOWCASE | TIP | ANNOUNCEMENT
deriving DecidableEq, Repr

/-- `ArtisanFeed`: service/promotion post owned by an `ArtisanProfile`. -/
structure ArtisanFeed where
  id : Nat
  artisan : Nat
  title : String
  slug : String
  description : String
  post_type : PostType
  service_category : String
  featured_image : String
  video_url : Option String
  price : Option Int
  discount_percentage : Option Nat
  valid_from : Option Nat
  valid_until : Option Nat
  views_count : Nat
  comments_count : Nat
  likes_count : Nat
  dislikes_count : Nat
  reports_count : Nat
  shares_count : Nat
  created_at : Nat
  updated_at : Nat
  is_active : Bool
  is_featured : Bool
  is_promoted : Bool
  is_flagged : Bool
deriving DecidableEq, Repr

/-- `ArtisanFeed.save`: when the slug is empty, set it to
    `slugify(f"{title}-{uuid.uuid4().hex[:8]}")`. -/
def ArtisanFeed.save (suffix : String) (f : ArtisanFeed) : ArtisanFeed :=
  if f.slug = "" then
    { f with slug := slugify (f.title ++ "-" ++ suffix) }
  else f

/-- Range validators declared on `ArtisanFeed`: nullable
    `discount_percentage` has `MinValueValidator(0), MaxValueValidator(100)`
    (the lower bound is automatic for a `Nat`). -/
def ArtisanFeed.checkRanges (f : ArtisanFeed) : Bool :=
  match f.discount_percentage with
  | none => true
  | some d => d ≤ 100

/-- Write path for `ArtisanFeed`: `save`, declared validators, then
    uniqueness — only the primary key is unique; `artisan_feeds.slug`
    carries no `unique=True`. -/
def ArtisanFeed.insert (db : List ArtisanFeed) (suffix : String)
    (f : ArtisanFeed) : Except WriteError (List ArtisanFeed) :=
  let f := ArtisanFeed.save suffix f
  if !f.checkRanges then .error .ConstraintViolation
  else if db.any (fun q => q.id == f.id) then .error .UniquenessViolation
  else .ok (db ++ [f])

/-! ## Comment -/

/-- `Comment.COMMENT_TYPE_CHOICES`: discriminator of the polymorphic target. -/
inductive CommentType
  | USER_FEED | ARTISAN_FEED
deriving DecidableEq, Repr

/-- `Comment`: universal comment over `UserFeed` / `ArtisanFeed`, with an
    optional self-referencing `parent_comment` (threaded replies,
    `on_delete=CASCADE`). -/
structure Comment where
  id : Nat
  user : Nat
  comment_type : CommentType
  user_feed : Option Nat
  artisan_feed : Option Nat
  content : String
  parent_comment : Option Nat
  likes_count : Nat
  dislikes_count : Nat
  created_at : Nat
  updated_at : Nat
  is_edited : Bool
  is_flagged : Bool
  is_deleted : Bool
deriving DecidableEq, Repr

/-- The polymorphic validity contract for `Comment` (spec §4.3): exactly one
    of the target foreign keys is non-null and it matches `comment_type`.
    The model itself declares no such check. -/
def Comment.validTarget (c : Comment) : Bool :=
  match c.comment_type, c.user_feed, c.artisan_feed with
  | .USER_FEED, some _, none => true
  | .ARTISAN_FEED, none, some _ => true
  | _, _, _ => false

/-- Write path for `Comment`: the model declares no validator and no
    uniqueness constraint beyond the primary key, so any record with a
    fresh id is stored as-is. -/
def Comment.insert (db : List Comment) (c : Comment) :
    Except WriteError (List Comment) :=
  if db.any (fun q => q.id == c.id) then .error .UniquenessViolation
  else .ok (db ++ [c])

/-! ## Reaction -/

/-- `Reaction.REACTION_TYPES`. -/
inductive ReactionKind
  | LIKE | DISLIKE
deriving DecidableEq, Repr

/-- `Reaction.CONTENT_TYPE_CHOICES`: discriminator of the polymorphic target. -/
inductive ReactionContent
  | USER_FEED | ARTISAN_FEED | COMMENT
deriving DecidableEq, Repr

/-- `Reaction`: like/dislike by a user on a feed post or comment. -/
structure Reaction where
  id : Nat
  user : Nat
  reaction_type : ReactionKind
  content_type : ReactionContent
  user_feed : Option Nat
  artisan_feed : Option Nat
  comment : Option Nat
  created_at : Nat
deriving DecidableEq, Repr

/-- The tuple of `Reaction.Meta.unique_together`:
    `[['user', 'content_type', 'user_feed', 'artisan_feed', 'comment']]`.
    Note that `reaction_type` is not part of it. -/
def Reaction.key (r : Reaction) :
    Nat × ReactionContent × Option Nat × Option Nat × Option Nat :=
  (r.user, r.content_type, r.user_feed, r.artisan_feed, r.comment)

/-- The polymorphic validity contract for `Reaction` (spec §4.3). -/
def Reaction.validTarget (r : Reaction) : Bool :=
  match r.content_type, r.user_feed, r.artisan_feed, r.comment with
  | .USER_FEED, some _, none, none => true
  | .ARTISAN_FEED, none, some _, none => true
  | .COMMENT, none, none, some _ => true
  | _, _, _, _ => false

/-- Write path for `Reaction`: primary key plus the `unique_together`
    tuple (value equality of the tuple, the constraint as declared). -/
def Reaction.insert (db : List Reaction) (r : Reaction) :
    Except WriteError (List Reaction) :=
  if db.any (fun q => q.id == r.id || q.key == r.key) then
    .error .UniquenessViolation
  else .ok (db ++ [r])

/-! ## Report -/

/-- `Report.REPORT_REASONS`. -/
inductive ReportReason
  | SPAM | INAPPROPRIATE | SCAM | MISLEADING | HARASSMENT | COPYRIGHT | OTHER
deriving DecidableEq, Repr

/-- `Report.CONTENT_TYPE_CHOICES`: discriminator of the polymorphic target. -/
inductive ReportContent
  | USER_FEED | ARTISAN_FEED | COMMENT | USER
deriving DecidableEq, Repr

/-- `Report.STATUS_CHOICES`. -/
inductive ReportStatus
  | PENDING | UNDER_REVIEW | RESOLVED | DISMISSED
deriving DecidableEq, Repr

/-- `Report`: flagging of content or a user.  All target foreign keys and
    `reporter`/`reported_user` are `on_delete=CASCADE`; `reviewed_by` alone
    is `on_delete=SET_NULL`. -/
structure Report where
  id : Nat
  reporter : Nat
  content_type : ReportContent
  user_feed : Option Nat
  artisan_feed : Option Nat
  comment : Option Nat
  reported_user : Option Nat
  reason : ReportReason
  description : String
  status : ReportStatus
  reviewed_by : Option Nat
  resolution_notes : String
  created_at : Nat
  reviewed_at : Option Nat
deriving DecidableEq, Repr

/-- The polymorphic validity contract for `Report` (spec §4.3). -/
def Report.validTarget (r : Report) : Bool :=
  match r.content_type, r.user_feed, r.artisan_feed, r.comment, r.reported_user with
  | .USER_FEED, some _, none, none, none => true
  | .ARTISAN_FEED, none, some _, none, none => true
  | .COMMENT, none, none, some _, none => true
  | .USER, none, none, none, some _ => true
  | _, _, _, _, _ => false

/-- Write path for `Report`: only the primary key is unique. -/
def Report.insert (db : List Report) (r : Report) :
    Except WriteError (List Report) :=
  if db.any (fun q => q.id == r.id) then .error .UniquenessViolation
  else .ok (db ++ [r])

/-! ## ArtisanProposal -/

/-- `ArtisanProposal.STATUS_CHOICES`. -/
inductive ProposalStatus
  | PENDING | ACCEPTED | REJECTED | WITHDRAWN
deriving DecidableEq, Repr

/-- `ArtisanProposal`: an artisan's quote against a job request. -/
structure ArtisanProposal where
  id : Nat
  user_feed : Nat
  artisan : Nat
  proposed_price : Int
  estimated_duration : Nat
  message : String
  terms_conditions : String
  payment_terms : String
  quote_document : Option String
  status : ProposalStatus
  created_at : Nat
  updated_at : Nat
  accepted_at : Option Nat
deriving DecidableEq, Repr

/-- Write path for `ArtisanProposal`: primary key plus
    `unique_together = [['user_feed', 'artisan']]`. -/
def ArtisanProposal.insert (db : List ArtisanProposal) (p : ArtisanProposal) :
    Except WriteError (List ArtisanProposal) :=
  if db.any (fun q => q.id == p.id ||
      (q.user_feed == p.user_feed && q.artisan == p.artisan)) then
    .error .UniquenessViolation
  else .ok (db ++ [p])

/-! ## Whole database and user deletion

The cascade behaviour of `User` deletion follows the declared `on_delete`
modes: every foreign key in the schema is `CASCADE` except
`Report.reviewed_by`, which is `SET_NULL`. -/

/-- A snapshot of every table of the schema. -/
structure DB where
  users : List User
  roles : List Role
  profiles : List ArtisanProfile
  works : List ArtisanWork
  workImages : List ArtisanWorkImage
  userFeeds : List UserFeed
  artisanFeeds : List ArtisanFeed
  comments : List Comment
  reactions : List Reaction
  reports : List Report
  proposals : List ArtisanProposal
deriving DecidableEq, Repr

/-- Membership of a nullable foreign key in a set of doomed ids. -/
def omem (x : Option Nat) (dead : List Nat) : Bool :=
  match x with
  | some v => dead.contains v
  | none => false

/-- Profiles cascaded by deleting user `u` (`ArtisanProfile.user`, CASCADE). -/
def deletedProfileIds (db : DB) (u : Nat) : List Nat :=
  (db.profiles.filter (fun p => p.user == u)).map (·.id)

/-- Works cascaded through their deleted owning profile
    (`ArtisanWork.artisan`, CASCADE). -/
def deletedWorkIds (db : DB) (u : Nat) : List Nat :=
  (db.works.filter (fun w => (deletedProfileIds db u).contains w.artisan)).map (·.id)

/-- Job-request posts cascaded by deleting user `u`
    (`UserFeed.user`, CASCADE). -/
def deletedUserFeedIds (db : DB) (u : Nat) : List Nat :=
  (db.userFeeds.filter (fun f => f.user == u)).map (·.id)

/-- Artisan posts cascaded through the deleted profile
    (`ArtisanFeed.artisan`, CASCADE). -/
def deletedArtisanFeedIds (db : DB) (u : Nat) : List Nat :=
  (db.artisanFeeds.filter (fun f => (deletedProfileIds db u).contains f.artisan)).map (·.id)

/-- A comment doomed directly: authored by the deleted user
    (`Comment.user`, CASCADE) or sitting on a doomed feed
    (`Comment.user_feed` / `Comment.artisan_feed`, CASCADE). -/
def commentSeed (db : DB) (u : Nat) (c : Comment) : Bool :=
  c.user == u || omem c.user_feed (deletedUserFeedIds db u) ||
    omem c.artisan_feed (deletedArtisanFeedIds db u)

/-- One round of the reply cascade: a comment whose `parent_comment` is
    doomed becomes doomed (`Comment.parent_comment`, CASCADE). -/
def replyStep (cs : List Comment) (dead : List Nat) : List Nat :=
  dead ++ (cs.filter (fun c =>
    !dead.contains c.id && omem c.parent_comment dead)).map (·.id)

/-- Iterate the reply cascade; `cs.length` rounds reach the fixpoint since
    each productive round dooms at least one more comment. -/
def closeReplies (cs : List Comment) : Nat → List Nat → List Nat
  | 0, dead => dead
  | n + 1, dead => closeReplies cs n (replyStep cs dead)

/-- All comments deleted when user `u` is deleted: the directly doomed ones
    closed under the reply cascade. -/
def deletedCommentIds (db : DB) (u : Nat) : List Nat :=
  closeReplies db.comments db.comments.length
    ((db.comments.filter (commentSeed db u)).map (·.id))

/-- Whether deleting user `u` deletes report `r`: through its reporter
    (`Report.reporter`, CASCADE), its reported user
    (`Report.reported_user`, CASCADE), or a doomed target
    (`Report.user_feed` / `artisan_feed` / `comment`, CASCADE). -/
def reportDead (db : DB) (u : Nat) (r : Report) : Bool :=
  r.reporter == u || r.reported_user == some u ||
    omem r.user_feed (deletedUserFeedIds db u) ||
    omem r.artisan_feed (deletedArtisanFeedIds db u) ||
    omem r.comment (deletedCommentIds db u)

/-- Delete user `u` with the cascade semantics declared by the schema's
    `on_delete` modes; surviving reports whose `reviewed_by` references `u`
    get that field set to null (`SET_NULL`), everything else about them is
    untouched. -/
def DB.deleteUser (db : DB) (u : Nat) : DB :=
  { users := db.users.filter (fun x => !(x.id == u))
    roles := db.roles.filter (fun r => !(r.user == u))
    profiles := db.profiles.filter (fun p => !(p.user == u))
    works := db.works.filter (fun w => !(deletedProfileIds db u).contains w.artisan)
    workImages := db.workImages.filter (fun i => !(deletedWorkIds db u).contains i.work)
    userFeeds := db.userFeeds.filter (fun f => !(f.user == u))
    artisanFeeds := db.artisanFeeds.filter
      (fun f => !(deletedProfileIds db u).contains f.artisan)
    comments := db.comments.filter (fun c => !(deletedCommentIds db u).contains c.id)
    reactions := db.reactions.filter (fun r => !(r.user == u ||
      omem r.user_feed (deletedUserFeedIds db u) ||
      omem r.artisan_feed (deletedArtisanFeedIds db u) ||
      omem r.comment (deletedCommentIds db u)))
    reports := (db.reports.filter (fun r => !reportDead db u r)).map
      (fun r => if r.reviewed_by == some u then { r with reviewed_by := none } else r)
    proposals := db.proposals.filter (fun p =>
      !((deletedUserFeedIds db u).contains p.user_feed ||
        (deletedProfileIds db u).contains p.artisan)) }

/-! ## Shared lemmas -/

/-- The saved row itself is always present after `Role.upsert`. -/
lemma Role.mem_upsert_self (db : List Role) (r : Role) : r ∈ Role.upsert db r := by
  by_cases hc : db.any (fun q => q.id == r.id) = true
  · rw [Role.upsert, if_pos hc]
    rcases List.any_eq_true.1 hc with ⟨x, hx, hxid⟩
    exact List.mem_map.2 ⟨x, hx, by rw [if_pos hxid]⟩
  · rw [Role.upsert, if_neg hc]
    exact List.mem_append.2 (Or.inr (List.mem_singleton.2 rfl))

/-- A row found after `Role.upsert` is the saved row or an untouched row
    with a different primary key. -/
lemma Role.mem_upsert_elim {db : List Role} {r q : Role}
    (hq : q ∈ Role.upsert db r) : q = r ∨ (q ∈ db ∧ q.id ≠ r.id) := by
  by_cases hc : db.any (fun q => q.id == r.id) = true
  · rw [Role.upsert, if_pos hc] at hq
    rcases List.mem_map.1 hq with ⟨x, hx, hxq⟩
    by_cases hid : (x.id == r.id) = true
    · rw [if_pos hid] at hxq; exact Or.inl hxq.symm
    · rw [if_neg hid] at hxq
      subst hxq
      exact Or.inr ⟨hx, fun he => hid (beq_iff_eq.2 he)⟩
  · rw [Role.upsert, if_neg hc] at hq
    rcases List.mem_append.1 hq with hq | hq
    · refine Or.inr ⟨hq, fun he => hc ?_⟩
      exact List.any_eq_true.2 ⟨q, hq, beq_iff_eq.2 he⟩
    · exact Or.inl (List.mem_singleton.1 hq)

/-- After the demotion pass of a primary save, no row of the same user is
    still primary. -/
lemma Role.mem_demoteOthers {db : List Role} {r q : Role}
    (h : r.is_primary = true) (hq : q ∈ Role.demoteOthers db r)
    (hu : q.user = r.user) : q.is_primary = false := by
  rw [Role.demoteOthers, if_pos h] at hq
  rcases List.mem_map.1 hq with ⟨y, _, hyq⟩
  by_cases hc : (y.user == r.user && y.is_primary) = true
  · rw [if_pos hc] at hyq; subst hyq; rfl
  · rw [if_neg hc] at hyq
    subst hyq
    cases hp : y.is_primary
    · rfl
    · exact absurd (by simp [hu, hp]) hc

/-! ## C1: at most one primary role per user -/

/-- C1: after any save of a `Role` with `is_primary = true`, the saved row
    is present, every other role of the same user is non-primary, and hence
    at most one role of that user is primary. -/
theorem role_primary_exclusive (db : List Role) (r : Role)
    (h : r.is_primary = true) :
    r ∈ Role.saveOn db r ∧
    (∀ q ∈ Role.saveOn db r, q.user = r.user → q.id ≠ r.id → q.is_primary = false) ∧
    (∀ q1 ∈ Role.saveOn db r, ∀ q2 ∈ Role.saveOn db r,
      q1.user = r.user → q2.user = r.user →
      q1.is_primary = true → q2.is_primary = true → q1.id = q2.id) := by
  have hother : ∀ q ∈ Role.saveOn db r, q.user = r.user → q.id ≠ r.id →
      q.is_primary = false := by
    intro q hq hu hid
    rcases Role.mem_upsert_elim hq with hq | ⟨hq, _⟩
    · exact absurd (congrArg Role.id hq) hid
    · exact Role.mem_demoteOthers h hq hu
  refine ⟨Role.mem_upsert_self _ r, hother, ?_⟩
  intro q1 hq1 q2 hq2 hu1 hu2 hp1 hp2
  have h1 : q1.id = r.id := by
    by_contra hne
    exact absurd hp1 (by rw [hother q1 hq1 hu1 hne]; decide)
  have h2 : q2.id = r.id := by
    by_contra hne
    exact absurd hp2 (by rw [hother q2 hq2 hu2 hne]; decide)
  rw [h1, h2]

/-- Scenario roles for the C1 witness: user 1 first saves PLUMBER as
    primary, then ELECTRICIAN as primary. -/
def plumberRole : Role :=
  { id := 10, user := 1, role_type := .PLUMBER, is_primary := true,
    assigned_date := 0, is_active := true }

def electricianRole : Role :=
  { id := 11, user := 1, role_type := .ELECTRICIAN, is_primary := true,
    assigned_date := 0, is_active := true }

/-- Witness for C1: in the concrete PLUMBER-then-ELECTRICIAN scenario the
    theorem applies, and PLUMBER's flag has indeed become false while
    ELECTRICIAN's is true. -/
theorem role_primary_exclusive_witness :
    electricianRole.is_primary = true ∧
    (∀ q ∈ Role.saveOn (Role.saveOn [] plumberRole) electricianRole,
      q.user = electricianRole.user → q.id ≠ electricianRole.id →
      q.is_primary = false) ∧
    Role.saveOn (Role.saveOn [] plumberRole) electricianRole =
      [{ plumberRole with is_primary := false }, electricianRole] :=
  ⟨rfl,
   (role_primary_exclusive (Role.saveOn [] plumberRole) electricianRole rfl).2.1,
   by decide⟩

/-! ## C5: ArtisanProfile slug derivation -/

/-- C5: an `ArtisanProfile` saved without a slug receives the slugified
    form of `business_name ++ "-" ++ username`. -/
theorem artisan_profile_slug_formula (p : ArtisanProfile) (username : String)
    (h : p.slug = "") :
    (ArtisanProfile.save username p).slug =
      slugify (p.business_name ++ "-" ++ username) := by
  rw [ArtisanProfile.save, if_pos h]

/-- Concrete profile for the C5 witness. -/
def aceProfile : ArtisanProfile :=
  { id := 1, user := 1, business_name := "Ace Plumbing", slug := "",
    specialization := "p", years_of_experience := 3,
    experience_level := .INTERMEDIATE, license_number := "",
    certification := none, business_registration := "", tax_id := "",
    insurance_details := "", average_rating := 0, total_reviews := 0,
    completed_projects := 0, availability_status := .AVAILABLE,
    hourly_rate := none, service_radius := none, about := "",
    services_offered := "s", is_verified := false, verified_date := none,
    verification_documents := none, created_at := 0, updated_at := 0 }

/-- Witness for C5: business_name "Ace Plumbing" with username "ace1" and
    no slug yields exactly "ace-plumbing-ace1". -/
theorem artisan_profile_slug_formula_witness :
    aceProfile.slug = "" ∧
    (ArtisanProfile.save "ace1" aceProfile).slug = "ace-plumbing-ace1" :=
  ⟨rfl, (artisan_profile_slug_formula aceProfile "ace1" rfl).trans (by decide)⟩

/-! ## C3: uniqueness of the reaction tuple -/

/-- C3: a second `Reaction` with the same
    `(user, content_type, user_feed, artisan_feed, comment)` tuple is
    rejected with a uniqueness violation, and a successful insert keeps the
    tuples pairwise distinct. -/
theorem reaction_tuple_unique (db : List Reaction) (r : Reaction) :
    (∀ q ∈ db, q.key = r.key →
      Reaction.insert db r = .error .UniquenessViolation) ∧
    (∀ db', Reaction.insert db r = .ok db' →
      List.Pairwise (fun a b => a.key ≠ b.key) db →
      List.Pairwise (fun a b => a.key ≠ b.key) db') := by
  constructor
  · intro q hq hk
    rw [Reaction.insert, if_pos (List.any_eq_true.2 ⟨q, hq, by simp [hk]⟩)]
  · intro db' hok hpw
    by_cases hc : db.any (fun q => q.id == r.id || q.key == r.key) = true
    · rw [Reaction.insert, if_pos hc] at hok
      exact absurd hok (by simp)
    · rw [Reaction.insert, if_neg hc] at hok
      cases hok
      refine List.pairwise_append.2 ⟨hpw, List.pairwise_singleton _ _, ?_⟩
      intro a ha b hb
      rcases List.mem_singleton.1 hb with rfl
      intro hk
      exact hc (List.any_eq_true.2 ⟨a, ha, by simp [hk]⟩)

/-- Concrete reactions for the C3/C10 witnesses: user 7 reacting to
    user feed 3. -/
def likeReaction : Reaction :=
  { id := 21, user := 7, reaction_type := .LIKE, content_type := .USER_FEED,
    user_feed := some 3, artisan_feed := none, comment := none, created_at := 0 }

def dupReaction : Reaction :=
  { id := 22, user := 7, reaction_type := .LIKE, content_type := .USER_FEED,
    user_feed := some 3, artisan_feed := none, comment := none, created_at := 1 }

/-- Witness for C3: the duplicate tuple is rejected on the concrete data. -/
theorem reaction_tuple_unique_witness :
    likeReaction.key = dupReaction.key ∧
    Reaction.insert [likeReaction] dupReaction = .error .UniquenessViolation :=
  ⟨by decide,
   (reaction_tuple_unique [likeReaction] dupReaction).1 likeReaction
     (List.mem_singleton.2 rfl) (by decide)⟩

/-! ## C10: one reaction per target regardless of reaction type -/

/-- C10: because `reaction_type` is not part of the unique tuple, a user who
    already holds a LIKE on a target cannot also store a DISLIKE on the same
    target — the second write is rejected. -/
theorem reaction_like_dislike_exclusive (db : List Reaction) (r1 r2 : Reaction)
    (hmem : r1 ∈ db)
    (hty1 : r1.reaction_type = .LIKE) (hty2 : r2.reaction_type = .DISLIKE)
    (hu : r1.user = r2.user) (hct : r1.content_type = r2.content_type)
    (huf : r1.user_feed = r2.user_feed)
    (haf : r1.artisan_feed = r2.artisan_feed)
    (hcm : r1.comment = r2.comment) :
    Reaction.insert db r2 = .error .UniquenessViolation := by
  have hk : r1.key = r2.key := by
    rw [Reaction.key, Reaction.key, hu, hct, huf, haf, hcm]
  rw [Reaction.insert, if_pos (List.any_eq_true.2 ⟨r1, hmem, by simp [hk]⟩)]

/-- The DISLIKE attempt for the C10 witness. -/
def dislikeReaction : Reaction :=
  { id := 23, user := 7, reaction_type := .DISLIKE, content_type := .USER_FEED,
    user_feed := some 3, artisan_feed := none, comment := none, created_at := 2 }

/-- Witness for C10: with a LIKE stored, the DISLIKE on the same target by
    the same user is rejected. -/
theorem reaction_like_dislike_exclusive_witness :
    likeReaction.reaction_type = .LIKE ∧
    dislikeReaction.reaction_type = .DISLIKE ∧
    Reaction.insert [likeReaction] dislikeReaction =
      .error .UniquenessViolation :=
  ⟨rfl, rfl,
   reaction_like_dislike_exclusive [likeReaction] likeReaction dislikeReaction
     (List.mem_singleton.2 rfl) rfl rfl rfl rfl rfl rfl rfl⟩

/-! ## C4: one proposal per (user_feed, artisan) -/

/-- C4: a second `ArtisanProposal` by the same artisan on the same job
    request is rejected with `UniquenessViolation` (so no second proposal is
    stored), and a successful insert keeps the `(user_feed, artisan)` pairs
    pairwise distinct. -/
theorem proposal_unique_per_pair (db : List ArtisanProposal) (p : ArtisanProposal) :
    (∀ q ∈ db, q.user_feed = p.user_feed → q.artisan = p.artisan →
      ArtisanProposal.insert db p = .error .UniquenessViolation) ∧
    (∀ db', ArtisanProposal.insert db p = .ok db' →
      List.Pairwise (fun a b => a.user_feed ≠ b.user_feed ∨ a.artisan ≠ b.artisan) db →
      List.Pairwise (fun a b => a.user_feed ≠ b.user_feed ∨ a.artisan ≠ b.artisan) db') := by
  constructor
  · intro q hq hf ha
    rw [ArtisanProposal.insert, if_pos (List.any_eq_true.2 ⟨q, hq, by simp [hf, ha]⟩)]
  · intro db' hok hpw
    by_cases hc : db.any (fun q => q.id == p.id ||
        (q.user_feed == p.user_feed && q.artisan == p.artisan)) = true
    · rw [ArtisanProposal.insert, if_pos hc] at hok
      exact absurd hok (by simp)
    · rw [ArtisanProposal.insert, if_neg hc] at hok
      cases hok
      refine List.pairwise_append.2 ⟨hpw, List.pairwise_singleton _ _, ?_⟩
      intro a ha b hb
      rcases List.mem_singleton.1 hb with rfl
      by_contra hcon
      rw [not_or, not_not, not_not] at hcon
      exact hc (List.any_eq_true.2 ⟨a, ha, by simp [hcon.1, hcon.2]⟩)

/-- Concrete proposals for the C4 witness: artisan 5 proposing twice on
    user feed 9. -/
def firstProposal : ArtisanProposal :=
  { id := 31, user_feed := 9, artisan := 5, proposed_price := 10000,
    estimated_duration := 7, message := "m", terms_conditions := "",
    payment_terms := "", quote_document := none, status := .PENDING,
    created_at := 0, updated_at := 0, accepted_at := none }

def secondProposal : ArtisanProposal :=
  { id := 32, user_feed := 9, artisan := 5, proposed_price := 9000,
    estimated_duration := 6, message := "n", terms_conditions := "",
    payment_terms := "", quote_document := none, status := .PENDING,
    created_at := 1, updated_at := 1, accepted_at := none }

/-- Witness for C4: the second proposal on the same feed by the same
    artisan is rejected. -/
theorem proposal_unique_per_pair_witness :
    firstProposal.user_feed = secondProposal.user_feed ∧
    firstProposal.artisan = secondProposal.artisan ∧
    ArtisanProposal.insert [firstProposal] secondProposal =
      .error .UniquenessViolation :=
  ⟨rfl, rfl,
   (proposal_unique_per_pair [firstProposal] secondProposal).1 firstProposal
     (List.mem_singleton.2 rfl) rfl rfl⟩

/-! ## C8: declared range validators -/

/-- Slug generation does not touch `average_rating`. -/
lemma profileSave_checkRanges (username : String) (p : ArtisanProfile) :
    (ArtisanProfile.save username p).checkRanges = p.checkRanges := by
  rw [ArtisanProfile.save]; split <;> rfl

/-- Slug generation does not touch `client_rating`. -/
lemma workSave_checkRanges (suffix : String) (w : ArtisanWork) :
    (ArtisanWork.save suffix w).checkRanges = w.checkRanges := by
  rw [ArtisanWork.save]; split <;> rfl

/-- Slug generation does not touch `discount_percentage`. -/
lemma feedSave_checkRanges (suffix : String) (f : ArtisanFeed) :
    (ArtisanFeed.save suffix f).checkRanges = f.checkRanges := by
  rw [ArtisanFeed.save]; split <;> rfl

/-- C8: the declared validators mean exactly the claimed numeric ranges
    (`average_rating` in hundredths within `[0, 500]`, `discount_percentage`
    within `[0, 100]`, `client_rating` within `[1, 5]` when present);
    a write outside a range is rejected as `ConstraintViolation`, and a
    successful write preserves "every stored record is in range". -/
theorem validator_ranges :
    (∀ p : ArtisanProfile, p.checkRanges = true ↔
      0 ≤ p.average_rating ∧ p.average_rating ≤ 500) ∧
    (∀ w : ArtisanWork, w.checkRanges = true ↔
      ∀ n, w.client_rating = some n → 1 ≤ n ∧ n ≤ 5) ∧
    (∀ f : ArtisanFeed, f.checkRanges = true ↔
      ∀ n, f.discount_percentage = some n → n ≤ 100) ∧
    (∀ (db : List ArtisanProfile) (username : String) (p : ArtisanProfile),
      p.checkRanges = false →
      ArtisanProfile.insert db username p = .error .ConstraintViolation) ∧
    (∀ (db : List ArtisanWork) (suffix : String) (w : ArtisanWork),
      w.checkRanges = false →
      ArtisanWork.insert db suffix w = .error .ConstraintViolation) ∧
    (∀ (db : List ArtisanFeed) (suffix : String) (f : ArtisanFeed),
      f.checkRanges = false →
      ArtisanFeed.insert db suffix f = .error .ConstraintViolation) ∧
    (∀ (db : List ArtisanProfile) (username : String) (p : ArtisanProfile) db',
      ArtisanProfile.insert db username p = .ok db' →
      (∀ q ∈ db, q.checkRanges = true) → ∀ q ∈ db', q.checkRanges = true) ∧
    (∀ (db : List ArtisanWork) (suffix : String) (w : ArtisanWork) db',
      ArtisanWork.insert db suffix w = .ok db' →
      (∀ q ∈ db, q.checkRanges = true) → ∀ q ∈ db', q.checkRanges = true) ∧
    (∀ (db : List ArtisanFeed) (suffix : String) (f : ArtisanFeed) db',
      ArtisanFeed.insert db suffix f = .ok db' →
      (∀ q ∈ db, q.checkRanges = true) → ∀ q ∈ db', q.checkRanges = true) := by
  refine ⟨?_, ?_, ?_, ?_, ?_, ?_, ?_, ?_, ?_⟩
  · intro p
    simp [ArtisanProfile.checkRanges]
  · intro w
    cases h : w.client_rating <;> simp [ArtisanWork.checkRanges, h]
  · intro f
    cases h : f.discount_percentage <;> simp [ArtisanFeed.checkRanges, h]
  · intro db username p h
    rw [ArtisanProfile.insert]
    simp only [profileSave_checkRanges, h]
    rfl
  · intro db suffix w h
    rw [ArtisanWork.insert]
    simp only [workSave_checkRanges, h]
    rfl
  · intro db suffix f h
    rw [ArtisanFeed.insert]
    simp only [feedSave_checkRanges, h]
    rfl
  · intro db username p db' hok hdb
    rw [ArtisanProfile.insert] at hok
    split at hok
    · exact absurd hok (by simp)
    · rename_i hrange
      split at hok
      · exact absurd hok (by simp)
      · cases hok
        intro q hq
        rcases List.mem_append.1 hq with hq | hq
        · exact hdb q hq
        · rcases List.mem_singleton.1 hq with rfl
          simpa using hrange
  · intro db suffix w db' hok hdb
    rw [ArtisanWork.insert] at hok
    split at hok
    · exact absurd hok (by simp)
    · rename_i hrange
      split at hok
      · exact absurd hok (by simp)
      · cases hok
        intro q hq
        rcases List.mem_append.1 hq with hq | hq
        · exact hdb q hq
        · rcases List.mem_singleton.1 hq with rfl
          simpa using hrange
  · intro db suffix f db' hok hdb
    rw [ArtisanFeed.insert] at hok
    split at hok
    · exact absurd hok (by simp)
    · rename_i hrange
      split at hok
      · exact absurd hok (by simp)
      · cases hok
        intro q hq
        rcases List.mem_append.1 hq with hq | hq
        · exact hdb q hq
        · rcases List.mem_singleton.1 hq with rfl
          simpa using hrange

/-- Out-of-range records for the C8 witness. -/
def badRatingProfile : ArtisanProfile :=
  { aceProfile with id := 2, user := 2, slug := "b", average_rating := 501 }

def badRatingWork : ArtisanWork :=
  { id := 41, artisan := 1, title := "t", slug := "w", description := "d",
    project_type := "x", project_status := .COMPLETED, duration_days := 1,
    project_cost := none, location := "l", featured_image := "i",
    client_name := "", client_testimonial := "", client_rating := some 6,
    views_count := 0, likes_count := 0, completion_date := none,
    created_at := 0, updated_at := 0, is_featured := false, is_public := true }

def badDiscountFeed : ArtisanFeed :=
  { id := 51, artisan := 1, title := "t", slug := "f", description := "d",
    post_type := .PROMOTION, service_category := "c", featured_image := "i",
    video_url := none, price := none, discount_percentage := some 101,
    valid_from := none, valid_until := none, views_count := 0,
    comments_count := 0, likes_count := 0, dislikes_count := 0,
    reports_count := 0, shares_count := 0, created_at := 0, updated_at := 0,
    is_active := true, is_featured := false, is_promoted := false,
    is_flagged := false }

/-- Witness for C8: rating 5.01, client rating 6 and discount 101 are each
    rejected as `ConstraintViolation` on concrete data. -/
theorem validator_ranges_witness :
    badRatingProfile.checkRanges = false ∧
    badRatingWork.checkRanges = false ∧
    badDiscountFeed.checkRanges = false ∧
    ArtisanProfile.insert [] "u" badRatingProfile = .error .ConstraintViolation ∧
    ArtisanWork.insert [] "s" badRatingWork = .error .ConstraintViolation ∧
    ArtisanFeed.insert [] "s" badDiscountFeed = .error .ConstraintViolation :=
  ⟨by decide, by decide, by decide,
   validator_ranges.2.2.2.1 [] "u" badRatingProfile (by decide),
   validator_ranges.2.2.2.2.1 [] "s" badRatingWork (by decide),
   validator_ranges.2.2.2.2.2.1 [] "s" badDiscountFeed (by decide)⟩

/-! ## C9: slug uniqueness

Only `artisan_profiles.slug` is declared `unique=True`; the slug columns of
`artisan_works`, `user_feeds` and `artisan_feeds` carry no uniqueness
constraint, so a duplicate slug there is stored without error. -/

/-- Two portfolio works sharing the slug "dup-slug" for the C9
    counterexample. -/
def dupSlugWorkA : ArtisanWork :=
  { badRatingWork with id := 61, slug := "dup-slug", client_rating := none }

def dupSlugWorkB : ArtisanWork :=
  { badRatingWork with id := 62, slug := "dup-slug", client_rating := none }

/-- Counterexample to C9: an `ArtisanWork` whose slug duplicates an existing
    work's slug is accepted and silently stored — the schema declares no
    uniqueness on that column. -/
theorem duplicate_work_slug_accepted :
    dupSlugWorkA.slug = dupSlugWorkB.slug ∧
    dupSlugWorkA.slug ≠ "" ∧
    ArtisanWork.insert [dupSlugWorkA] "s" dupSlugWorkB =
      .ok [dupSlugWorkA, dupSlugWorkB] :=
  ⟨rfl, by decide, rfl⟩

/-- C9 (amended): a duplicate `ArtisanProfile` slug is rejected with
    `UniquenessViolation`; for the other slugged entities no slug
    uniqueness is declared, and a record whose only conflict is a duplicate
    slug is stored. -/
theorem slug_unique_only_on_profile :
    (∀ (db : List ArtisanProfile) (username : String) (p : ArtisanProfile),
      ∀ q ∈ db, q.slug = (ArtisanProfile.save username p).slug →
      (ArtisanProfile.save username p).checkRanges = true →
      ArtisanProfile.insert db username p = .error .UniquenessViolation) ∧
    (∀ (db : List ArtisanWork) (suffix : String) (w : ArtisanWork),
      (ArtisanWork.save suffix w).checkRanges = true →
      (db.any (fun q => q.id == (ArtisanWork.save suffix w).id)) = false →
      ArtisanWork.insert db suffix w = .ok (db ++ [ArtisanWork.save suffix w])) ∧
    (∀ (db : List UserFeed) (suffix : String) (f : UserFeed),
      (db.any (fun q => q.id == (UserFeed.save suffix f).id)) = false →
      UserFeed.insert db suffix f = .ok (db ++ [UserFeed.save suffix f])) ∧
    (∀ (db : List ArtisanFeed) (suffix : String) (f : ArtisanFeed),
      (ArtisanFeed.save suffix f).checkRanges = true →
      (db.any (fun q => q.id == (ArtisanFeed.save suffix f).id)) = false →
      ArtisanFeed.insert db suffix f = .ok (db ++ [ArtisanFeed.save suffix f])) := by
  refine ⟨?_, ?_, ?_, ?_⟩
  · intro db username p q hq hslug hrange
    rw [ArtisanProfile.insert]
    simp only [hrange, Bool.not_true]
    rw [if_neg (by simp)]
    rw [if_pos (List.any_eq_true.2 ⟨q, hq, by simp [hslug]⟩)]
  · intro db suffix w hrange hany
    rw [ArtisanWork.insert]
    simp only [hrange, hany, Bool.not_true]
    rw [if_neg (by simp), if_neg (by simp)]
  · intro db suffix f hany
    rw [UserFeed.insert]
    simp only [hany]
    rw [if_neg (by simp)]
  · intro db suffix f hrange hany
    rw [ArtisanFeed.insert]
    simp only [hrange, hany, Bool.not_true]
    rw [if_neg (by simp), if_neg (by simp)]

/-- The profile clashing with `aceProfile`'s slug for the C9 witness. -/
def clashProfile : ArtisanProfile :=
  { aceProfile with id := 4, user := 4, slug := "ace-plumbing-ace1" }

/-- Witness for C9 (amended): a profile whose slug equals a stored
    profile's slug is rejected, and a work with a duplicated slug but fresh
    primary key is accepted. -/
theorem slug_unique_only_on_profile_witness :
    ArtisanProfile.insert [clashProfile] "ace1" aceProfile =
      .error .UniquenessViolation ∧
    ArtisanWork.insert [dupSlugWorkA] "t" dupSlugWorkB =
      .ok ([dupSlugWorkA] ++ [ArtisanWork.save "t" dupSlugWorkB]) :=
  ⟨slug_unique_only_on_profile.1 [clashProfile] "ace1" aceProfile clashProfile
     (List.mem_singleton.2 rfl) (by decide) (by decide),
   slug_unique_only_on_profile.2.1 [dupSlugWorkA] "t" dupSlugWorkB
     (by decide) (by decide)⟩

/-! ## C2: the polymorphic exactly-one target contract -/

/-- An invalid comment: discriminator `USER_FEED` but both target foreign
    keys null.  Nothing in the schema stops it. -/
def orphanComment : Comment :=
  { id := 71, user := 7, comment_type := .USER_FEED, user_feed := none,
    artisan_feed := none, content := "c", parent_comment := none,
    likes_count := 0, dislikes_count := 0, created_at := 0, updated_at := 0,
    is_edited := false, is_flagged := false, is_deleted := false }

/-- Counterexample to C2: the write path accepts and stores a `Comment`
    whose discriminator matches no non-null foreign key, so "every stored
    record has exactly one matching non-null target key" fails. -/
theorem orphan_comment_stored :
    orphanComment.validTarget = false ∧
    Comment.insert [] orphanComment = .ok [orphanComment] :=
  ⟨rfl, rfl⟩

/-- C2 (amended): the exactly-one-matching-target contract is a write
    boundary obligation, not a schema constraint: inserts do not check it,
    but any insert of a record satisfying it preserves "all stored records
    satisfy it" for `Comment`, `Reaction` and `Report`. -/
theorem polymorphic_target_contract :
    (∀ (db : List Comment) (c : Comment) db',
      Comment.insert db c = .ok db' → c.validTarget = true →
      (∀ q ∈ db, q.validTarget = true) → ∀ q ∈ db', q.validTarget = true) ∧
    (∀ (db : List Reaction) (r : Reaction) db',
      Reaction.insert db r = .ok db' → r.validTarget = true →
      (∀ q ∈ db, q.validTarget = true) → ∀ q ∈ db', q.validTarget = true) ∧
    (∀ (db : List Report) (r : Report) db',
      Report.insert db r = .ok db' → r.validTarget = true →
      (∀ q ∈ db, q.validTarget = true) → ∀ q ∈ db', q.validTarget = true) := by
  refine ⟨?_, ?_, ?_⟩
  · intro db c db' hok hc hdb
    rw [Comment.insert] at hok
    split at hok
    · exact absurd hok (by simp)
    · cases hok
      intro q hq
      rcases List.mem_append.1 hq with hq | hq
      · exact hdb q hq
      · rcases List.mem_singleton.1 hq with rfl
        exact hc
  · intro db r db' hok hc hdb
    rw [Reaction.insert] at hok
    split at hok
    · exact absurd hok (by simp)
    · cases hok
      intro q hq
      rcases List.mem_append.1 hq with hq | hq
      · exact hdb q hq
      · rcases List.mem_singleton.1 hq with rfl
        exact hc
  · intro db r db' hok hc hdb
    rw [Report.insert] at hok
    split at hok
    · exact absurd hok (by simp)
    · cases hok
      intro q hq
      rcases List.mem_append.1 hq with hq | hq
      · exact hdb q hq
      · rcases List.mem_singleton.1 hq with rfl
        exact hc

/-- A valid comment on user feed 3 for the C2 witness. -/
def feedComment : Comment :=
  { orphanComment with id := 72, user_feed := some 3 }

/-- Witness for C2 (amended): inserting a valid comment into a valid table
    keeps every stored comment valid. -/
theorem polymorphic_target_contract_witness :
    feedComment.validTarget = true ∧
    (∀ q ∈ [feedComment], Comment.validTarget q = true) :=
  ⟨rfl,
   polymorphic_target_contract.1 [] feedComment [feedComment] rfl rfl
     (by intro q hq; exact absurd hq (List.not_mem_nil q))⟩

/-! ## C6: slug non-emptiness and stability -/

/-- A character that survives every stage of `slugify`: an ASCII code point
    whose lower-case form is alphanumeric. -/
def slugSurvivor (c : Char) : Bool :=
  c.toNat < 128 && (c.toLower).isAlphanum

/-- An alphanumeric character is neither a dash, nor whitespace, nor an
    underscore. -/
lemma isAlphanum_not_special {c : Char} (h : c.isAlphanum = true) :
    isDashOrSpace c = false ∧ isStripChar c = false := by
  constructor
  · cases hd : isDashOrSpace c
    · rfl
    · exfalso
      simp only [isDashOrSpace, isSpaceChar, Bool.or_eq_true, decide_eq_true_eq] at hd
      have hid : c = '-' ∨ c = ' ' ∨ c = '\t' ∨ c = '\n' ∨ c = '\x0d' ∨
          c = '\x0b' ∨ c = '\x0c' := by tauto
      rcases hid with h1 | h1 | h1 | h1 | h1 | h1 | h1 <;>
        (subst h1; exact absurd h (by decide))
  · cases hd : isStripChar c
    · rfl
    · exfalso
      simp only [isStripChar, Bool.or_eq_true, decide_eq_true_eq] at hd
      rcases hd with h1 | h1 <;> (subst h1; exact absurd h (by decide))

/-- Collapsing dash/whitespace runs keeps every non-run character. -/
lemma mem_collapseAux {c : Char} (hc : isDashOrSpace c = false) :
    ∀ (b : Bool) (l : List Char), c ∈ l → c ∈ collapseAux b l := by
  intro b l
  induction l generalizing b with
  | nil => intro h; exact absurd h (List.not_mem_nil c)
  | cons x xs ih =>
    intro h
    by_cases hx : isDashOrSpace x = true
    · have hcx : c ∈ xs := by
        rcases List.mem_cons.1 h with rfl | h
        · rw [hc] at hx; cases hx
        · exact h
      simp only [collapseAux, if_pos hx]
      split
      · exact ih true hcx
      · exact List.mem_cons_of_mem _ (ih true hcx)
    · simp only [collapseAux, if_neg hx]
      rcases List.mem_cons.1 h with rfl | h
      · exact List.mem_cons_self _ _
      · exact List.mem_cons_of_mem _ (ih false h)

/-- Dropping a prefix of `p`-characters keeps every non-`p` character. -/
lemma mem_dropWhile_of_not {p : Char → Bool} {c : Char} (hc : p c = false) :
    ∀ l : List Char, c ∈ l → c ∈ l.dropWhile p := by
  intro l
  induction l with
  | nil => exact id
  | cons x xs ih =>
    intro h
    rw [List.dropWhile_cons]
    by_cases hx : p x = true
    · rcases List.mem_cons.1 h with rfl | h
      · rw [hc] at hx; cases hx
      · rw [if_pos hx]; exact ih h
    · rw [if_neg hx]; exact h

/-- Stripping dashes/underscores from both ends keeps every other
    character. -/
lemma mem_stripEnds {c : Char} (hc : isStripChar c = false)
    {l : List Char} (h : c ∈ l) : c ∈ stripEnds l := by
  rw [stripEnds, List.mem_reverse]
  exact mem_dropWhile_of_not hc _
    (List.mem_reverse.2 (mem_dropWhile_of_not hc _ h))

/-- A slug-surviving character in the input guarantees a non-empty slug. -/
lemma slugify_nonempty {s : String}
    (h : ∃ c ∈ s.data, slugSurvivor c = true) : slugify s ≠ "" := by
  rcases h with ⟨c, hc, hs⟩
  rw [slugSurvivor, Bool.and_eq_true, decide_eq_true_eq] at hs
  rcases hs with ⟨h128, halnum⟩
  have h0 : c ∈ s.data.filter (fun c => c.toNat < 128) :=
    List.mem_filter.2 ⟨hc, by simp [h128]⟩
  have h1 : c.toLower ∈ (s.data.filter (fun c => c.toNat < 128)).map Char.toLower :=
    List.mem_map.2 ⟨c, h0, rfl⟩
  have h2 : c.toLower ∈ ((s.data.filter (fun c => c.toNat < 128)).map
      Char.toLower).filter (fun c => isWordChar c || isSpaceChar c || c = '-') :=
    List.mem_filter.2 ⟨h1, by simp [isWordChar, halnum]⟩
  have h3 := mem_collapseAux (isAlphanum_not_special halnum).1 false _ h2
  have h4 := mem_stripEnds (isAlphanum_not_special halnum).2 h3
  intro heq
  have hdata : stripEnds (collapseAux false (((s.data.filter
      (fun c => c.toNat < 128)).map Char.toLower).filter
      (fun c => isWordChar c || isSpaceChar c || c = '-'))) = [] :=
    congrArg String.data heq
  rw [hdata] at h4
  exact List.not_mem_nil _ h4

/-- A profile whose business name and username slugify to nothing, for the
    C6 counterexample. -/
def punctProfile : ArtisanProfile :=
  { aceProfile with id := 3, user := 3, business_name := "!!!", slug := "" }

/-- Counterexample to C6: creating an `ArtisanProfile` with business name
    containing no slug-surviving character (here exclamation marks only,
    username made of characters the username validator allows but slugify
    deletes) leaves the generated slug empty. -/
theorem profile_slug_empty_counterexample :
    punctProfile.slug = "" ∧
    (ArtisanProfile.save "@.+" punctProfile).slug = "" :=
  ⟨rfl, by decide⟩

/-- C6 (amended): the generated slug is non-empty whenever the slug base
    contains a slug-surviving character — automatic for `ArtisanWork`,
    `UserFeed` and `ArtisanFeed`, whose base embeds the random hex suffix —
    and every save with a non-empty slug leaves the slug untouched
    (regeneration happens only on an empty slug). -/
theorem slug_nonempty_and_stable :
    (∀ (p : ArtisanProfile) (username : String), p.slug = "" →
      (∃ c ∈ (p.business_name ++ "-" ++ username).data, slugSurvivor c = true) →
      (ArtisanProfile.save username p).slug ≠ "") ∧
    (∀ (w : ArtisanWork) (suffix : String), w.slug = "" →
      (∃ c ∈ suffix.data, slugSurvivor c = true) →
      (ArtisanWork.save suffix w).slug ≠ "") ∧
    (∀ (f : UserFeed) (suffix : String), f.slug = "" →
      (∃ c ∈ suffix.data, slugSurvivor c = true) →
      (UserFeed.save suffix f).slug ≠ "") ∧
    (∀ (f : ArtisanFeed) (suffix : String), f.slug = "" →
      (∃ c ∈ suffix.data, slugSurvivor c = true) →
      (ArtisanFeed.save suffix f).slug ≠ "") ∧
    (∀ (p : ArtisanProfile) (username : String), p.slug ≠ "" →
      (ArtisanProfile.save username p).slug = p.slug) ∧
    (∀ (w : ArtisanWork) (suffix : String), w.slug ≠ "" →
      (ArtisanWork.save suffix w).slug = w.slug) ∧
    (∀ (f : UserFeed) (suffix : String), f.slug ≠ "" →
      (UserFeed.save suffix f).slug = f.slug) ∧
    (∀ (f : ArtisanFeed) (suffix : String), f.slug ≠ "" →
      (ArtisanFeed.save suffix f).slug = f.slug) := by
  have hsuffix : ∀ (t suffix : String), (∃ c ∈ suffix.data, slugSurvivor c = true) →
      ∃ c ∈ (t ++ "-" ++ suffix).data, slugSurvivor c = true := by
    intro t suffix ⟨c, hc, hs⟩
    refine ⟨c, ?_, hs⟩
    rw [String.data_append]
    exact List.mem_append.2 (Or.inr hc)
  refine ⟨?_, ?_, ?_, ?_, ?_, ?_, ?_, ?_⟩
  · intro p username h hex
    rw [ArtisanProfile.save, if_pos h]
    exact slugify_nonempty hex
  · intro w suffix h hex
    rw [ArtisanWork.save, if_pos h]
    exact slugify_nonempty (hsuffix w.title suffix hex)
  · intro f suffix h hex
    rw [UserFeed.save, if_pos h]
    exact slugify_nonempty (hsuffix f.title suffix hex)
  · intro f suffix h hex
    rw [ArtisanFeed.save, if_pos h]
    exact slugify_nonempty (hsuffix f.title suffix hex)
  · intro p username h
    rw [ArtisanProfile.save, if_neg h]
  · intro w suffix h
    rw [ArtisanWork.save, if_neg h]
  · intro f suffix h
    rw [UserFeed.save, if_neg h]
  · intro f suffix h
    rw [ArtisanFeed.save, if_neg h]

/-- Witness for C6 (amended): concrete creation yields a non-empty slug,
    and a save with a non-empty slug leaves it unchanged. -/
theorem slug_nonempty_and_stable_witness :
    aceProfile.slug = "" ∧
    (ArtisanProfile.save "ace1" aceProfile).slug ≠ "" ∧
    dupSlugWorkA.slug ≠ "" ∧
    (ArtisanWork.save "a1b2c3d4" dupSlugWorkA).slug = dupSlugWorkA.slug :=
  ⟨rfl,
   slug_nonempty_and_stable.1 aceProfile "ace1" rfl (by decide),
   by decide,
   slug_nonempty_and_stable.2.2.2.2.2.1 dupSlugWorkA "a1b2c3d4" (by decide)⟩

/-! ## C7: user deletion cascade -/

/-- The doomed set only grows while the reply cascade iterates. -/
lemma subset_closeReplies (cs : List Comment) :
    ∀ (n : Nat) (dead : List Nat) (x : Nat), x ∈ dead → x ∈ closeReplies cs n dead := by
  intro n
  induction n with
  | zero => intro dead x h; exact h
  | succ n ih =>
    intro dead x h
    exact ih _ x (List.mem_append.2 (Or.inl h))

/-- A profile of the deleted user is in the doomed profile set. -/
lemma mem_deletedProfileIds {db : DB} {u : Nat} {p : ArtisanProfile}
    (hp : p ∈ db.profiles) (hu : p.user = u) :
    (deletedProfileIds db u).contains p.id = true := by
  rw [deletedProfileIds]
  exact List.elem_iff.2 (List.mem_map.2 ⟨p, List.mem_filter.2 ⟨hp, by simp [hu]⟩, rfl⟩)

/-- A job-request feed of the deleted user is in the doomed feed set. -/
lemma mem_deletedUserFeedIds {db : DB} {u : Nat} {f : UserFeed}
    (hf : f ∈ db.userFeeds) (hu : f.user = u) :
    (deletedUserFeedIds db u).contains f.id = true := by
  rw [deletedUserFeedIds]
  exact List.elem_iff.2 (List.mem_map.2 ⟨f, List.mem_filter.2 ⟨hf, by simp [hu]⟩, rfl⟩)

/-- A comment doomed directly (authored by the deleted user or sitting on a
    doomed feed) is in the doomed comment set. -/
lemma comment_dead_of_seed {db : DB} {u : Nat} {c : Comment}
    (hc : c ∈ db.comments) (hseed : commentSeed db u c = true) :
    (deletedCommentIds db u).contains c.id = true := by
  rw [deletedCommentIds]
  exact List.elem_iff.2 (subset_closeReplies _ _ _ _
    (List.mem_map.2 ⟨c, List.mem_filter.2 ⟨hc, hseed⟩, rfl⟩))

/-- C7: deleting a user removes their roles, their profile, the profile's
    portfolio works and feed posts, their job-request feeds, every comment
    they authored or that sat on a doomed feed, every reaction they made or
    that targeted doomed content, and every report they made or that
    targeted doomed content; a surviving report never references the
    deleted user as reviewer, and a report whose only link to the user is
    `reviewed_by` survives with that field nulled and all else unchanged. -/
theorem user_delete_cascade (db : DB) (u : Nat) :
    (∀ r ∈ (db.deleteUser u).roles, r.user ≠ u) ∧
    (∀ p ∈ (db.deleteUser u).profiles, p.user ≠ u) ∧
    (∀ w ∈ (db.deleteUser u).works, ∀ p ∈ db.profiles, p.user = u →
      w.artisan ≠ p.id) ∧
    (∀ f ∈ (db.deleteUser u).artisanFeeds, ∀ p ∈ db.profiles, p.user = u →
      f.artisan ≠ p.id) ∧
    (∀ f ∈ (db.deleteUser u).userFeeds, f.user ≠ u) ∧
    (∀ c ∈ (db.deleteUser u).comments, c.user ≠ u ∧
      (∀ f ∈ db.userFeeds, f.user = u → c.user_feed ≠ some f.id)) ∧
    (∀ x ∈ (db.deleteUser u).reactions, x.user ≠ u ∧
      omem x.user_feed (deletedUserFeedIds db u) = false ∧
      omem x.artisan_feed (deletedArtisanFeedIds db u) = false ∧
      omem x.comment (deletedCommentIds db u) = false) ∧
    (∀ r ∈ (db.deleteUser u).reports, r.reporter ≠ u ∧
      omem r.user_feed (deletedUserFeedIds db u) = false ∧
      omem r.artisan_feed (deletedArtisanFeedIds db u) = false ∧
      omem r.comment (deletedCommentIds db u) = false ∧
      r.reviewed_by ≠ some u) ∧
    (∀ r ∈ db.reports, reportDead db u r = false → r.reviewed_by = some u →
      { r with reviewed_by := none } ∈ (db.deleteUser u).reports) := by
  refine ⟨?_, ?_, ?_, ?_, ?_, ?_, ?_, ?_, ?_⟩
  · intro r hr
    simp only [DB.deleteUser] at hr
    rcases List.mem_filter.1 hr with ⟨_, hcond⟩
    simp only [Bool.not_eq_true'] at hcond
    exact fun he => by simp [he] at hcond
  · intro p hp
    simp only [DB.deleteUser] at hp
    rcases List.mem_filter.1 hp with ⟨_, hcond⟩
    simp only [Bool.not_eq_true'] at hcond
    exact fun he => by simp [he] at hcond
  · intro w hw p hp hup he
    simp only [DB.deleteUser] at hw
    rcases List.mem_filter.1 hw with ⟨_, hcond⟩
    simp only [Bool.not_eq_true'] at hcond
    rw [he, mem_deletedProfileIds hp hup] at hcond
    cases hcond
  · intro f hf p hp hup he
    simp only [DB.deleteUser] at hf
    rcases List.mem_filter.1 hf with ⟨_, hcond⟩
    simp only [Bool.not_eq_true'] at hcond
    rw [he, mem_deletedProfileIds hp hup] at hcond
    cases hcond
  · intro f hf
    simp only [DB.deleteUser] at hf
    rcases List.mem_filter.1 hf with ⟨_, hcond⟩
    simp only [Bool.not_eq_true'] at hcond
    exact fun he => by simp [he] at hcond
  · intro c hc
    simp only [DB.deleteUser] at hc
    rcases List.mem_filter.1 hc with ⟨hmem, hcond⟩
    simp only [Bool.not_eq_true'] at hcond
    constructor
    · intro he
      rw [comment_dead_of_seed hmem (by simp [commentSeed, he])] at hcond
      cases hcond
    · intro f hf huf he
      have hseed : commentSeed db u c = true := by
        have : omem c.user_feed (deletedUserFeedIds db u) = true := by
          rw [he, omem, mem_deletedUserFeedIds hf huf]
        simp [commentSeed, this]
      rw [comment_dead_of_seed hmem hseed] at hcond
      cases hcond
  · intro x hx
    simp only [DB.deleteUser] at hx
    rcases List.mem_filter.1 hx with ⟨_, hcond⟩
    simp only [Bool.not_eq_true', Bool.or_eq_false_iff] at hcond
    obtain ⟨⟨⟨h1, h2⟩, h3⟩, h4⟩ := hcond
    exact ⟨fun he => by simp [he] at h1, h2, h3, h4⟩
  · intro r hr
    simp only [DB.deleteUser] at hr
    rcases List.mem_map.1 hr with ⟨r0, hr0, hval⟩
    rcases List.mem_filter.1 hr0 with ⟨_, hcond⟩
    simp only [Bool.not_eq_true'] at hcond
    rw [reportDead] at hcond
    simp only [Bool.or_eq_false_iff] at hcond
    obtain ⟨⟨⟨⟨h1, h2⟩, h3⟩, h4⟩, h5⟩ := hcond
    have hrep : r0.reporter ≠ u := fun he => by simp [he] at h1
    by_cases hrev : (r0.reviewed_by == some u) = true
    · rw [if_pos hrev] at hval
      subst hval
      exact ⟨fun he => hrep (by simpa using he), h3, h4, h5, by simp⟩
    · rw [if_neg hrev] at hval
      subst hval
      exact ⟨hrep, h3, h4, h5, fun he => hrev (by simp [he])⟩
  · intro r hr hdead hrev
    simp only [DB.deleteUser]
    refine List.mem_map.2 ⟨r, List.mem_filter.2 ⟨hr, by simp [hdead]⟩, ?_⟩
    rw [if_pos (by simp [hrev])]

/-- A report linked to user 1 only through `reviewed_by`, for the C7
    witness. -/
def survReport : Report :=
  { id := 81, reporter := 2, content_type := .USER, user_feed := none,
    artisan_feed := none, comment := none, reported_user := some 2,
    reason := .SPAM, description := "d", status := .PENDING,
    reviewed_by := some 1, resolution_notes := "", created_at := 0,
    reviewed_at := none }

/-- A comment authored by user 1, with a reply by user 2, for the C7
    witness (the reply must cascade away with its parent). -/
def authComment : Comment :=
  { orphanComment with id := 91, user := 1, user_feed := some 3 }

def replyComment : Comment :=
  { orphanComment with id := 92, user := 2, user_feed := some 3, parent_comment := some 91 }

def cascadeDB : DB :=
  { users := [], roles := [], profiles := [], works := [], workImages := [],
    userFeeds := [], artisanFeeds := [],
    comments := [authComment, replyComment],
    reactions := [], reports := [survReport], proposals := [] }

/-- Witness for C7: deleting user 1 removes their comment and its reply,
    while the report reviewed by user 1 survives with `reviewed_by`
    emptied and everything else intact. -/
theorem user_delete_cascade_witness :
    survReport ∈ cascadeDB.reports ∧
    reportDead cascadeDB 1 survReport = false ∧
    { survReport with reviewed_by := none } ∈ (cascadeDB.deleteUser 1).reports ∧
    (cascadeDB.deleteUser 1).comments = [] :=
  ⟨by decide, by decide,
   (user_delete_cascade cascadeDB 1).2.2.2.2.2.2.2.2 survReport
     (by decide) (by decide) rfl,
   by decide⟩

end ArtisanMarket
